import Mathlib

/-!
A shallow embedding of the Alpha Sentinel dashboard front-end
(`src/dashboard/app.js`, current version, and the legacy copy of the same
file kept in `src/unnamed/part_001`).

Conventions of the embedding:
* JavaScript numbers are modelled as `ℚ`; a field that may be `null` or
  `undefined` is an `Option`.  JS truthiness on such a field is
  `truthy`: `none` (absent) and `some 0` are falsy, everything else truthy.
* `item.toFixed(1) + 'x'` rendering is abstracted by the constructor
  `VolOI.ratio q`, carrying the exact quotient handed to `toFixed`; the
  textual rounding is injective-enough for every comparison made here
  (all comparisons are between quotients, or against the no-data marker).
* DOM writes replace a container's entire content, so a container is a
  single value of an inductive state type.
* `fetch` outcomes are a sum: transport error, or a response with an HTTP
  status and an optional parsed JSON body (`none` = `res.json()` threw).
-/

namespace AlphaSentinel

/-- JS truthiness of a nullable numeric field: `null`/`undefined` and `0`
are falsy. (`ℚ` has no `NaN`.) -/
def truthy : Option ℚ → Bool
  | none => false
  | some q => q != 0

/-- An alert row as consumed by the renderers; only the fields the claims
touch are carried. -/
structure AlertItem where
  ticker : String
  volume : Option ℚ
  oi : Option ℚ
deriving DecidableEq, Repr

/-- The vol/OI cell: either the no-data marker (`'—'` resp. `'-'`), or the
quotient that is passed to `.toFixed(1)` and suffixed with `'x'`. -/
inductive VolOI where
  | noData
  | ratio (q : ℚ)
deriving DecidableEq, Repr

/-- `src/dashboard/app.js:262` (alert card), `:305` (alert row) and `:146`
(detail overlay) all compute
`item.volume && item.oi ? (item.volume / item.oi).toFixed(1) + 'x' : '—'`:
the quotient is shown only when both fields are truthy. -/
def volOICurrent (item : AlertItem) : VolOI :=
  match item.volume, item.oi with
  | some v, some o => if v ≠ 0 ∧ o ≠ 0 then .ratio (v / o) else .noData
  | _, _ => .noData

/-- `src/unnamed/part_001` (legacy `loadAlerts` table row) computes
`item.volume ? (item.volume / (item.oi || 1)).toFixed(1) + 'x' : '-'`:
when `volume` is truthy but `oi` is falsy the divisor is replaced by `1`. -/
def volOILegacy (item : AlertItem) : VolOI :=
  match item.volume with
  | none => .noData
  | some v =>
    if v ≠ 0 then
      .ratio (v / (match item.oi with
        | some o => if o ≠ 0 then o else 1
        | none => 1))
    else .noData

/-- Written from the amended claim's words: the quotient is displayed when
`volume` and `open_interest` are both present and nonzero, otherwise the
no-data marker is shown. -/
def volOISpecAmended (item : AlertItem) : VolOI :=
  if truthy item.volume ∧ truthy item.oi then
    .ratio (item.volume.getD 0 / item.oi.getD 0)
  else .noData

/-- Written from the amended claim's words for the legacy renderer: no-data
when `volume` is zero or absent; otherwise the quotient, with divisor `1`
substituted when `open_interest` is zero or absent. -/
def volOILegacySpecAmended (item : AlertItem) : VolOI :=
  if truthy item.volume then
    .ratio (item.volume.getD 0 / (if truthy item.oi then item.oi.getD 0 else 1))
  else .noData

/-- `history.slice(-40)` in `generateSparklineSVG`
(`src/dashboard/app.js:78`): the trailing window of at most 40 points.
(JS `slice(-40)` returns a fresh array of the last `min(length, 40)`
elements; `List.drop` with truncated subtraction is exactly that window.) -/
def sparkPoints (history : List ℚ) : List ℚ :=
  history.drop (history.length - 40)

/-- `generateSparklineSVG` (`src/dashboard/app.js:76-108`), reduced to the
geometry the claims are about: `none` models the early `return ''` for an
absent or short history; otherwise the list of `(x, y)` coordinates of the
path, where `x = (i / (points.length - 1)) * w` and `y` falls back to
`h / 2` when the value range is flat. -/
def generateSparklineSVG (history : Option (List ℚ)) (w h : ℚ) :
    Option (List (ℚ × ℚ)) :=
  match history with
  | none => none
  | some hist =>
    if hist.length < 2 then none
    else
      let points := sparkPoints hist
      let mn := points.foldl min (points.headD 0)
      let mx := points.foldl max (points.headD 0)
      let range := mx - mn
      let padding : ℚ := 2
      let effH := h - padding * 2
      some (points.enum.map (fun p =>
        (((p.1 : ℚ) / ((points.length - 1 : ℕ) : ℚ)) * w,
         if range > 0 then padding + effH - ((p.2 - mn) / range) * effH
         else h / 2)))

/-- `[...item.score_history].slice(-10).reverse()` in
`openMonitorDetailPopup` (`src/dashboard/app.js:398`): the spread copies
the source array, `slice(-10)` takes the trailing window of at most 10
samples (again a fresh array), and `reverse` mutates only that copy. -/
def recentTicks (history : List ℚ) : List ℚ :=
  (history.drop (history.length - 10)).reverse

/-- The score-history part of `openMonitorDetailPopup`
(`src/dashboard/app.js:394-413`): the tick list rendered (when the history
is truthy and nonempty), paired with the item's `score_history` after the
render — the source array is only read through fresh copies, never written. -/
def monitorDetailTicks (history : Option (List ℚ)) :
    Option (List ℚ) × Option (List ℚ) :=
  match history with
  | none => (none, none)
  | some l => (if l.length > 0 then some (recentTicks l) else none, some l)

/-- Which collection `toggleAOI` refreshes afterwards. -/
inductive Feed where
  | monitors
  | alerts
deriving DecidableEq, Repr

/-- The externally visible steps a watch-list toggle performs, in order. -/
inductive UIAction where
  | disable (ck : String)
  | post (ck : String) (isActive : ℕ)
  | refresh (feed : Feed) (isBackground : Bool)
deriving DecidableEq, Repr

/-- `toggleAOI` (`src/dashboard/app.js:111-121`): guard on a falsy
`contractKey` (absent or empty string); disable the `[data-ck=…]` control
when `document.querySelector` finds one (`btnFound`); POST
`/watchlist/toggle` with the inverse of `currentActive`; then, since
`fetchApi` never throws, unconditionally refresh the monitor list on
`monitor.html` and the alert list elsewhere, in background mode. -/
def toggleAOI (contractKey : Option String) (currentActive : Bool)
    (onMonitorPage : Bool) (btnFound : Bool) : List UIAction :=
  match contractKey with
  | none => []
  | some key =>
    if key = "" then []
    else
      (if btnFound then [.disable key] else [])
        ++ [.post key (if currentActive then 0 else 1),
            .refresh (if onMonitorPage then .monitors else .alerts) true]

/-- `toggleAOI` in the legacy copy (`src/unnamed/part_001`): same falsy
guard, same POST and refresh, but no control is ever located or disabled. -/
def toggleAOILegacy (contractKey : Option String) (currentActive : Bool)
    (onMonitorPage : Bool) : List UIAction :=
  match contractKey with
  | none => []
  | some key =>
    if key = "" then []
    else [.post key (if currentActive then 0 else 1),
          .refresh (if onMonitorPage then .monitors else .alerts) true]

/-- Outcome of one `fetch`: a transport error (rejected promise), or a
response with an HTTP status and the parsed JSON body (`none` when
`res.json()` throws on a malformed payload). -/
inductive FetchOutcome (J : Type) where
  | netError
  | response (status : ℕ) (body : Option J)
deriving DecidableEq, Repr

/-- The browser-session state `fetchApi` can touch: the stored credential,
the navigation target last assigned to `location.href`, and how many times
`logout` has run. -/
structure Session where
  token : Option String
  href : Option String
  logoutCalls : ℕ
deriving DecidableEq, Repr

/-- `logout` (`src/dashboard/app.js:11-14`): remove the stored token and
navigate to the login page. -/
def logout (s : Session) : Session :=
  { token := none, href := some "/login.html", logoutCalls := s.logoutCalls + 1 }

/-- The value `fetchApi` (`src/dashboard/app.js:47-56`) returns: `null` on
a transport error; on a 401 outside the login page, `null` (before any
parse); otherwise the parsed body, with a parse failure caught to `null`.
The return value does not depend on the session state. -/
def fetchApiResult {J : Type} (onLoginPage : Bool) : FetchOutcome J → Option J
  | .netError => none
  | .response status body =>
    if status = 401 ∧ ¬onLoginPage then none else body

/-- The session effect of one `fetchApi` call: only a 401 outside the
login page runs `logout`; every other outcome leaves the session alone. -/
def fetchApiEffect {J : Type} (onLoginPage : Bool) (s : Session) :
    FetchOutcome J → Session
  | .netError => s
  | .response status _ =>
    if status = 401 ∧ ¬onLoginPage then logout s else s

/-- Several in-flight calls whose responses are handled one after another:
the session threads through `fetchApiEffect`; each call's return value is
independent of the session, so the results are a plain `map`. -/
def processCalls {J : Type} (onLoginPage : Bool) (s : Session)
    (outcomes : List (FetchOutcome J)) : Session × List (Option J) :=
  (outcomes.foldl (fetchApiEffect onLoginPage) s,
   outcomes.map (fetchApiResult onLoginPage))

/-- What a feed container holds at any instant.  Each render path replaces
the container's whole `innerHTML`, so the container is one value of this
type — the four states are mutually exclusive by construction. -/
inductive PanelState (α : Type) where
  | loading
  | errorState
  | empty
  | populated (items : List α)
deriving DecidableEq, Repr

/-- A monitor row; only the fields the claims touch are carried. -/
structure MonitorItem where
  ticker : String
  score_history : Option (List ℚ)
deriving DecidableEq, Repr

/-- How `loadAlerts` (`src/dashboard/app.js:345-370`) classifies a
response: outer `none` is `fetchApi` returning `null`, inner `none` is a
payload without an `items` field — both hit `!data?.items` and render the
error state; an empty `items` renders the empty state; otherwise the items
are rendered. -/
def classifyAlerts (resp : Option (Option (List AlertItem))) :
    PanelState AlertItem :=
  match resp with
  | none => .errorState
  | some none => .errorState
  | some (some []) => .empty
  | some (some items) => .populated items

/-- `loadMonitors` (`src/dashboard/app.js:531-553`) classifies its
response the same way. -/
def classifyMonitors (resp : Option (Option (List MonitorItem))) :
    PanelState MonitorItem :=
  match resp with
  | none => .errorState
  | some none => .errorState
  | some (some []) => .empty
  | some (some items) => .populated items

/-- Messages of `loadAlerts`: card container (`src/dashboard/app.js:331,
332, 355`). -/
def alertsCardsMsg : PanelState AlertItem → Option String
  | .loading => some "Loading alerts…"
  | .errorState => some "Error loading alerts"
  | .empty => some "No alerts match your filters"
  | .populated _ => none

/-- Messages of `loadAlerts`: table body (`src/dashboard/app.js:336, 348,
365`). -/
def alertsTableMsg : PanelState AlertItem → Option String
  | .loading => some "Loading alerts…"
  | .errorState => some "Error loading alerts"
  | .empty => some "No alerts match your filters"
  | .populated _ => none

/-- Messages of `loadMonitors`: card container (`src/dashboard/app.js:527,
524, 517-522`; the empty-state block's headline). -/
def monitorsCardsMsg : PanelState MonitorItem → Option String
  | .loading => some "Loading…"
  | .errorState => some "Failed to load monitors"
  | .empty => some "No contracts monitored"
  | .populated _ => none

/-- Messages of `loadMonitors`: table body (`src/dashboard/app.js:528,
534, 540`). -/
def monitorsTableMsg : PanelState MonitorItem → Option String
  | .loading => some "Loading…"
  | .errorState => some "Failed to load"
  | .empty => some "No contracts monitored"
  | .populated _ => none

/-- One observable event of a refresh cycle of the alerts feed.
`loadAlerts` keeps no request counter and no abort handle, so `reqId`
exists only to phrase the claim: the code cannot read it. -/
inductive FeedEv where
  | start (reqId : ℕ) (isBackground : Bool)
  | arrive (reqId : ℕ) (resp : Option (Option (List AlertItem)))
deriving DecidableEq, Repr

/-- How one event changes the alerts container: entering `loadAlerts` in
the foreground writes the loading state (`src/dashboard/app.js:334-337`);
a background entry writes nothing; and when any `await fetchApi` resumes,
its response is written unconditionally — there is no staleness check. -/
def feedStep (s : PanelState AlertItem) : FeedEv → PanelState AlertItem
  | .start _ isBackground => if isBackground then s else .loading
  | .arrive _ resp => classifyAlerts resp

/-- The container after a sequence of events, in arrival order. -/
def runFeed (init : PanelState AlertItem) (evs : List FeedEv) :
    PanelState AlertItem :=
  evs.foldl feedStep init

/-- The desktop `th-score` click (`src/dashboard/app.js:780-785`):
`currentSortScore` advances `'' → 'desc' → 'asc' → ''`. -/
def thScoreClick (s : String) : String :=
  if s = "" then "desc" else if s = "desc" then "asc" else ""

/-- The mobile sort-button click (`src/dashboard/app.js:787-794`):
`currentSortScore` toggles `'desc' → ''`, anything else `→ 'desc'`. -/
def mobileSortClick (s : String) : String :=
  if s = "desc" then "" else "desc"

/-- The desktop icon `refreshSortUI` picks
(`src/dashboard/app.js:761-766`), keyed by the shared
`currentSortScore`. -/
def sortIconName (s : String) : Option String :=
  if s = "" then some "swap_vert"
  else if s = "desc" then some "arrow_downward"
  else if s = "asc" then some "arrow_upward"
  else none

/-- Whether `refreshSortUI` marks the mobile button active
(`src/dashboard/app.js:768-776`): exactly when the shared
`currentSortScore` is `'desc'`. -/
def mobileSortActive (s : String) : Bool :=
  s = "desc"

/-- `refreshSortUI` (`src/dashboard/app.js:759-777`): both affordances are
rendered from the single `currentSortScore` value. -/
def refreshSortUI (s : String) : Option String × Bool :=
  (sortIconName s, mobileSortActive s)

/-! ## Claim C1 — vol/OI display -/

/-- C1 counterexample: the claim fails at two concrete alert items.
With `volume = 0` and `open_interest = 100` (present and nonzero) the
current renderers show the no-data marker, not `0/100` to one decimal;
and with `volume = 5`, `open_interest = 0` the legacy table renderer
shows `5.0x` (divisor substituted by 1), not the no-data marker. -/
theorem C1_counterexample :
    volOICurrent ⟨"T", some 0, some 100⟩ ≠ VolOI.ratio (0 / 100)
    ∧ volOILegacy ⟨"T", some 5, some 0⟩ ≠ VolOI.noData := by
  decide

/-- C1 amended: when `volume` and `open_interest` are both present and
nonzero, every renderer displays `volume / open_interest` to one decimal;
when either is zero or absent, the current card, row and detail renderers
show the no-data marker, while the legacy table renderer shows the no-data
marker only when `volume` is zero or absent and otherwise substitutes a
divisor of 1. -/
theorem C1_amended (item : AlertItem) :
    volOICurrent item = volOISpecAmended item
    ∧ volOILegacy item = volOILegacySpecAmended item := by
  obtain ⟨t, v, o⟩ := item
  constructor
  · cases v <;> cases o <;>
      simp [volOICurrent, volOISpecAmended, truthy]
  · cases v <;> cases o <;>
      simp [volOILegacy, volOILegacySpecAmended, truthy]

/-! ## Claim C2 — stale refresh responses -/

/-- C2 counterexample: two background refresh cycles overlap; request 2 is
initiated after request 1, request 2's response arrives first, and then
request 1's stale response arrives and overwrites it — the view ends on
the stale payload, not on the most recently initiated request's payload. -/
theorem C2_counterexample :
    runFeed .loading
      [.start 1 true, .start 2 true,
       .arrive 2 (some (some [⟨"NEW", none, none⟩])),
       .arrive 1 (some (some [⟨"OLD", none, none⟩]))]
      = PanelState.populated [⟨"OLD", none, none⟩]
    ∧ PanelState.populated [(⟨"OLD", none, none⟩ : AlertItem)]
      ≠ PanelState.populated [(⟨"NEW", none, none⟩ : AlertItem)] := by
  decide

/-- C2 amended: the engine never discards a response — each response is
applied to the view when it arrives, so the view always shows the
most recently *arrived* response (last writer wins), even when that
response belongs to an earlier-initiated request. -/
theorem C2_amended (init : PanelState AlertItem) (pre : List FeedEv)
    (r : ℕ) (resp : Option (Option (List AlertItem))) :
    runFeed init (pre ++ [.arrive r resp]) = classifyAlerts resp := by
  simp [runFeed, List.foldl_append, feedStep]

/-! ## Claim C9 — toggle with falsy contract key -/

/-- C9: with an absent or empty contract key, both the current and the
legacy toggle handler return before doing anything: no control is
disabled, no mutating call is issued, no refresh is triggered. -/
theorem C9_falsy_key_noop (active onMonitorPage btnFound : Bool) :
    toggleAOI none active onMonitorPage btnFound = []
    ∧ toggleAOI (some "") active onMonitorPage btnFound = []
    ∧ toggleAOILegacy none active onMonitorPage = []
    ∧ toggleAOILegacy (some "") active onMonitorPage = [] := by
  refine ⟨rfl, ?_, rfl, ?_⟩ <;> simp [toggleAOI, toggleAOILegacy]

/-! ## Claim C10 — sparkline guard -/

/-- Taking the trailing window twice changes nothing. -/
lemma sparkPoints_idem (l : List ℚ) :
    sparkPoints (sparkPoints l) = sparkPoints l := by
  unfold sparkPoints
  rw [List.length_drop, List.drop_drop]
  congr 1
  omega

/-- C10: an absent history or one with fewer than 2 points makes the
sparkline generator return the empty output, and whenever the coordinate
loop does run (length ≥ 2) the divisor `points.length - 1` is a nonzero
number — the generator is total. -/
theorem C10_short_history_guard (w h : ℚ) (l : List ℚ) :
    generateSparklineSVG none w h = none
    ∧ (l.length < 2 → generateSparklineSVG (some l) w h = none)
    ∧ (2 ≤ l.length → 0 < (sparkPoints l).length - 1
        ∧ (((sparkPoints l).length - 1 : ℕ) : ℚ) ≠ 0) := by
  refine ⟨rfl, fun hl => by simp [generateSparklineSVG, hl], fun hl => ?_⟩
  have hlen : (sparkPoints l).length = l.length - (l.length - 40) := by
    simp [sparkPoints]
  constructor
  · omega
  · have : (sparkPoints l).length - 1 ≠ 0 := by omega
    exact_mod_cast this

/-- C10 witness: the guard fires on the one-point history `[5]`, and on
the two-point history `[1, 2]` the divisor is positive. -/
theorem C10_short_history_guard_witness :
    generateSparklineSVG (some [(5 : ℚ)]) 90 24 = none
    ∧ 0 < (sparkPoints [(1 : ℚ), 2]).length - 1 :=
  ⟨(C10_short_history_guard 90 24 [5]).2.1 (by decide),
   ((C10_short_history_guard 90 24 [1, 2]).2.2 (by decide)).1⟩

/-! ## Claim C3 — 401 handling -/

/-- C3 counterexample: two in-flight calls both receive a 401 outside the
login page; `logout` runs once per rejecting call, i.e. twice — not
exactly once. -/
theorem C3_counterexample :
    (processCalls (J := ℕ) false ⟨some "tok", none, 0⟩
        [.response 401 none, .response 401 none]).1.logoutCalls ≠ 1
    ∧ (processCalls (J := ℕ) false ⟨some "tok", none, 0⟩
        [.response 401 none, .response 401 none]).1.logoutCalls = 2 := by
  decide

/-- Folding `n` further 401 rejections over the session after a first
logout: each rejection runs `logout` again, which is idempotent on the
token and the destination and increments the call count. -/
lemma foldl_401_replicate {J : Type} (b : Option J) (n : ℕ) (s : Session) :
    List.foldl (fetchApiEffect false) s
        (List.replicate n (.response 401 b)) =
      if n = 0 then s
      else ⟨none, some "/login.html", s.logoutCalls + n⟩ := by
  induction n generalizing s with
  | zero => rfl
  | succ m ih =>
    rw [List.replicate_succ, List.foldl_cons, ih]
    have hstep : fetchApiEffect (J := J) false s (.response 401 b)
        = logout s := by simp [fetchApiEffect]
    rcases Nat.eq_zero_or_pos m with hm | hm
    · subst hm; simp [hstep, logout]
    · have : m ≠ 0 := by omega
      simp only [hstep, this, if_false, logout]
      congr 1
      omega

/-- C3 amended: every 401 received outside the login page clears the
credential, sets the navigation target to the login view, and
short-circuits its caller with a null result; with `n + 1` in-flight
calls rejecting concurrently, `logout` runs `n + 1` times — once per
rejecting call, not exactly once — and, `logout` being idempotent, the
final session is the same as after a single logout. -/
theorem C3_amended {J : Type} (n : ℕ) (b : Option J) (s : Session) :
    (processCalls false s
        (List.replicate (n + 1) (.response 401 b))).1.token = none
    ∧ (processCalls false s
        (List.replicate (n + 1) (.response 401 b))).1.href
        = some "/login.html"
    ∧ (processCalls false s
        (List.replicate (n + 1) (.response 401 b))).1.logoutCalls
        = s.logoutCalls + (n + 1)
    ∧ (processCalls false s
        (List.replicate (n + 1) (.response 401 b))).2
        = List.replicate (n + 1) none := by
  have hfold := foldl_401_replicate b (n + 1) s
  have hres : fetchApiResult (J := J) false (.response 401 b) = none := by
    simp [fetchApiResult]
  simp [processCalls, hfold, hres]

/-! ## Claim C4 — watch-list toggle sequence -/

/-- C4 counterexample: the legacy toggle handler, invoked with the valid
key `"AAPL"`, issues the mutating call and the refresh but performs no
disable step at all. -/
theorem C4_counterexample :
    toggleAOILegacy (some "AAPL") false false
      = [UIAction.post "AAPL" 1, UIAction.refresh Feed.alerts true]
    ∧ UIAction.disable "AAPL" ∉ toggleAOILegacy (some "AAPL") false false := by
  decide

/-- C4 amended: with a valid contract key, both handlers issue the
mutating call requesting the inverse watched state and end with an
immediate background refresh of the dependent collection (monitor list on
the monitor view, alert list otherwise), regardless of the call's
outcome; the current handler additionally disables the triggering control
first, but only when a control carrying the matching `data-ck` is found,
and the legacy handler never disables anything. -/
theorem C4_amended (key : String) (hk : key ≠ "") (active : Bool)
    (onMonitorPage : Bool) (btnFound : Bool) :
    UIAction.post key (if active then 0 else 1)
      ∈ toggleAOI (some key) active onMonitorPage btnFound
    ∧ (toggleAOI (some key) active onMonitorPage btnFound).getLast?
      = some (.refresh (if onMonitorPage then .monitors else .alerts) true)
    ∧ (btnFound = true →
        (toggleAOI (some key) active onMonitorPage btnFound).head?
          = some (.disable key))
    ∧ toggleAOILegacy (some key) active onMonitorPage
      = [.post key (if active then 0 else 1),
         .refresh (if onMonitorPage then .monitors else .alerts) true] := by
  cases btnFound <;> simp [toggleAOI, toggleAOILegacy, hk]

/-- C4 witness: the amended claim at key `"AAPL"`, not currently watched,
on the alerts page, with the control found. -/
theorem C4_amended_witness :
    UIAction.post "AAPL" 1 ∈ toggleAOI (some "AAPL") false false true
    ∧ (toggleAOI (some "AAPL") false false true).head?
      = some (.disable "AAPL") := by
  have h := C4_amended "AAPL" (by decide) false false true
  exact ⟨h.1, h.2.2.1 rfl⟩

/-! ## Claim C5 — failure normalization in fetchApi -/

/-- C5 counterexample: a non-success HTTP status (500) whose body parses
returns that body to the caller, not null. -/
theorem C5_counterexample :
    fetchApiResult (J := ℕ) false (.response 500 (some 42)) = some 42
    ∧ fetchApiResult (J := ℕ) false (.response 500 (some 42)) ≠ none := by
  decide

/-- C5 amended: `fetchApi` never throws; a transport error or a malformed
payload yields null with no session effect; a 401 outside the login page
logs out and yields null; the login page's own 401s are not redirected;
but any other HTTP response — success or failure status alike — returns
its parsed body unchanged, so a non-success status with a well-formed
body reaches the caller as a non-null payload. -/
theorem C5_amended {J : Type} (status : ℕ) (hs : status ≠ 401) (b : J)
    (bo : Option J) (s : Session) :
    fetchApiResult (J := J) false .netError = none
    ∧ fetchApiResult (J := J) false (.response status none) = none
    ∧ fetchApiResult false (.response status (some b)) = some b
    ∧ fetchApiEffect false s (.response status bo) = s
    ∧ fetchApiEffect (J := J) false s .netError = s
    ∧ fetchApiResult (J := J) false (.response 401 bo) = none
    ∧ fetchApiEffect (J := J) false s (.response 401 bo) = logout s
    ∧ fetchApiResult (J := J) true (.response 401 bo) = bo
    ∧ fetchApiEffect (J := J) true s (.response 401 bo) = s := by
  simp [fetchApiResult, fetchApiEffect, hs]

/-- C5 witness: the amended claim at status 500 with body `7`. -/
theorem C5_amended_witness :
    fetchApiResult (J := ℕ) false (.response 500 none) = none
    ∧ fetchApiResult (J := ℕ) false (.response 500 (some 7)) = some 7 := by
  have h := C5_amended (J := ℕ) 500 (by decide) 7 (some 7) ⟨some "t", none, 0⟩
  exact ⟨h.2.1, h.2.2.1⟩

/-! ## Claim C6 — bounded read of score_history -/

/-- C6: the sparkline reads only a suffix of at most 40 points (feeding it
that suffix is indistinguishable from feeding it the whole history), the
detail tick list is the reverse of the trailing at-most-10 suffix, the
source history survives the detail render unchanged, and on
`[10, 20, 15]` the trend has the 3 points ending at 15 while the tick
list reads `(15, 20, 10)`. -/
theorem C6_bounded_window (hist : List ℚ) (w h : ℚ) :
    sparkPoints hist <:+ hist
    ∧ (sparkPoints hist).length = min hist.length 40
    ∧ generateSparklineSVG (some hist) w h
      = generateSparklineSVG (some (sparkPoints hist)) w h
    ∧ (recentTicks hist).reverse <:+ hist
    ∧ (recentTicks hist).length = min hist.length 10
    ∧ (monitorDetailTicks (some hist)).2 = some hist
    ∧ sparkPoints [10, 20, 15] = [(10 : ℚ), 20, 15]
    ∧ recentTicks [10, 20, 15] = [(15 : ℚ), 20, 10]
    ∧ monitorDetailTicks (some [(10 : ℚ), 20, 15])
      = (some [(15 : ℚ), 20, 10], some [10, 20, 15]) := by
  refine ⟨List.drop_suffix _ _, ?_, ?_, ?_, ?_, rfl, by decide, by decide,
    by decide⟩
  · simp [sparkPoints]
    omega
  · have hlen : (sparkPoints hist).length = hist.length - (hist.length - 40) := by
      simp [sparkPoints]
    by_cases h2 : hist.length < 2
    · have h2' : (sparkPoints hist).length < 2 := by omega
      simp [generateSparklineSVG, h2, h2']
    · have h2' : ¬(sparkPoints hist).length < 2 := by omega
      simp only [generateSparklineSVG, h2, h2', if_false, sparkPoints_idem]
  · rw [recentTicks, List.reverse_reverse]
    exact List.drop_suffix _ _
  · simp [recentTicks]
    omega

/-! ## Claim C7 — shared score-sort state -/

/-- C7 counterexample: with the shared sort state at DESC, activating the
mobile sort affordance moves the state to NONE, while the claimed cycle
NONE→DESC→ASC→NONE (which the desktop affordance does follow) demands
ASC. -/
theorem C7_counterexample :
    mobileSortClick "desc" = "" ∧ ("" : String) ≠ "asc"
    ∧ thScoreClick "desc" = "asc" := by
  decide

/-- C7 amended: both sort affordances are always rendered from the one
shared `currentSortScore` value — the desktop icon maps NONE/DESC/ASC to
its three glyphs and the mobile button is highlighted exactly in DESC —
and activating the desktop affordance cycles NONE→DESC→ASC→NONE, while
activating the mobile affordance toggles DESC→NONE and anything
else→DESC. -/
theorem C7_amended :
    thScoreClick "" = "desc" ∧ thScoreClick "desc" = "asc"
    ∧ thScoreClick "asc" = ""
    ∧ mobileSortClick "" = "desc" ∧ mobileSortClick "desc" = ""
    ∧ mobileSortClick "asc" = "desc"
    ∧ refreshSortUI "" = (some "swap_vert", false)
    ∧ refreshSortUI "desc" = (some "arrow_downward", true)
    ∧ refreshSortUI "asc" = (some "arrow_upward", false) := by
  decide

/-! ## Claim C8 — mutually exclusive panel states -/

/-- C8: a container holds a single `PanelState` value whose four
constructors are pairwise distinct, so exactly one of loading, error,
empty and populated is visible at any time; a successful response with an
empty items list — and only such a response — classifies as the empty
state, in the alerts feed and the monitors feed alike; and in both the
compact and the tabular renderer the empty-state message differs from
both the loading message and the error message. -/
theorem C8_exclusive_states (itemsA : List AlertItem)
    (itemsM : List MonitorItem) :
    classifyAlerts (some (some [])) = .empty
    ∧ classifyMonitors (some (some [])) = .empty
    ∧ (classifyAlerts (some (some itemsA)) = .empty ↔ itemsA = [])
    ∧ (classifyMonitors (some (some itemsM)) = .empty ↔ itemsM = [])
    ∧ classifyAlerts none = .errorState
    ∧ classifyAlerts (some none) = .errorState
    ∧ alertsCardsMsg .empty ≠ alertsCardsMsg .loading
    ∧ alertsCardsMsg .empty ≠ alertsCardsMsg .errorState
    ∧ alertsTableMsg .empty ≠ alertsTableMsg .loading
    ∧ alertsTableMsg .empty ≠ alertsTableMsg .errorState
    ∧ monitorsCardsMsg .empty ≠ monitorsCardsMsg .loading
    ∧ monitorsCardsMsg .empty ≠ monitorsCardsMsg .errorState
    ∧ monitorsTableMsg .empty ≠ monitorsTableMsg .loading
    ∧ monitorsTableMsg .empty ≠ monitorsTableMsg .errorState
    ∧ PanelState.loading ≠ (PanelState.errorState : PanelState AlertItem)
    ∧ PanelState.loading ≠ (PanelState.empty : PanelState AlertItem)
    ∧ PanelState.errorState ≠ (PanelState.empty : PanelState AlertItem)
    ∧ PanelState.populated itemsA ≠ .loading
    ∧ PanelState.populated itemsA ≠ .errorState
    ∧ PanelState.populated itemsA ≠ .empty := by
  refine ⟨rfl, rfl, ?_, ?_, rfl, rfl, by decide, by decide, by decide,
    by decide, by decide, by decide, by decide, by decide, by simp,
    by simp, by simp, by simp, by simp, by simp⟩
  · cases itemsA <;> simp [classifyAlerts]
  · cases itemsM <;> simp [classifyMonitors]

end AlphaSentinel
